import Mathlib

/-!
Verification of the kanobug repository: two AWS Lambda handlers that bridge
Slack slash-command / dialog interactions with DynamoDB and Jira.

The Go source (src/handlers/KanobugInteractiveComponent/main.go, holding both
the `KanobugInteractiveComponent` and the `KanobugCommand` packages) is
embedded shallowly:

* machine time is modelled as Unix seconds (`Int`); the deployment
  (serverless.yml, go1.x Lambda runtime, no TZ variable) runs in UTC, where
  Go's `Time.AddDate(0, 0, 7).Unix()` equals `Unix() + 7*86400` exactly;
* each handler becomes a pure function of the environment, the parsed
  request, the current time and an oracle for the outcomes of downstream
  HTTP / DynamoDB calls, returning the `Response`, the Go `error` value
  (`Option String`) and the ordered list of attempted side effects;
* Go's `defer createIssue(request)` (registered after token validation,
  executed after the return values are determined, before the function
  returns) appears in the effect trace after an explicit
  `responseDecided` marker;
* the unguarded `query["field"][0]` indexing at the top of both handlers is
  a Go panic when the field is absent; the full entry points return
  `Option`, with `none` denoting that runtime fault.
-/

namespace Kanobug

/-- Environment configuration read via `os.Getenv` in the source. -/
structure Env where
  slackVerificationToken : String
  jiraApiHost : String
  deriving Repr, DecidableEq

/-- `Response` (`events.APIGatewayProxyResponse`): the fields the handlers set. -/
structure Response where
  statusCode : Int
  isBase64Encoded : Bool
  body : String
  headers : List (String × String)
  deriving Repr, DecidableEq

/-- Body of the 400 rejection, `fmt.Sprintf("%s submitting - error: %v", handler, err)`
with `err = errors.New("invalid verification token")`. -/
def rejectBody (handlerName : String) : String :=
  handlerName ++ " submitting - error: invalid verification token"

/-- The 400 response both handlers return on token mismatch. -/
def rejectResponse (handlerName : String) : Response :=
  { statusCode := 400
    isBase64Encoded := false
    body := rejectBody handlerName
    headers := [("Content-Type", "application/json")] }

/-- The 200 response both handlers return once validation passes. -/
def okResponse : Response :=
  { statusCode := 200
    isBase64Encoded := false
    body := ""
    headers := [("Content-Type", "application/json")] }

/-- `url.ParseQuery` result lookup: the list of values bound to `key`
(Go `query[key]`, a possibly empty slice). -/
def formValues (query : List (String × String)) (key : String) : List String :=
  (query.filter (fun p => p.1 = key)).map Prod.snd

/-- `strings.Replace(s, "_", " ", -1)`: every underscore becomes a space. -/
def underscoresToSpaces (s : String) : String :=
  s.map (fun c => if c = '_' then ' ' else c)

/-- `strings.ToTitle` applied after the underscore replacement
(`Bug.ProductName`); on the ASCII product slugs title case is upper case. -/
def productTitle (s : String) : String :=
  (underscoresToSpaces s).map Char.toUpper

namespace Interactive

/-- `submission` struct of the interactive handler. -/
structure Submission where
  summary : String
  product : String
  details : String
  deriving Repr, DecidableEq

/-- `user` struct of the interactive handler. -/
structure User where
  id : String
  name : String
  deriving Repr, DecidableEq

/-- `Request`: the JSON-decoded dialog submission payload. -/
structure Request where
  type : String
  submission : Submission
  callbackID : String
  user : User
  actionTS : String
  token : String
  responseURL : String
  deriving Repr, DecidableEq

/-- Go zero value of `Request`, what `json.Unmarshal` leaves on decode failure. -/
def Request.zero : Request :=
  { type := "", submission := ⟨"", "", ""⟩, callbackID := "", user := ⟨"", ""⟩
    actionTS := "", token := "", responseURL := "" }

/-- `Bug` struct: the record persisted to DynamoDB.  `createdAt`/`updatedAt`
are Unix seconds; `ttl` is the `int64` Unix-timestamp TTL attribute. -/
structure Bug where
  userID : String
  userName : String
  summary : String
  product : String
  details : String
  createdAt : Int
  updatedAt : Int
  ttl : Int
  deriving Repr, DecidableEq

/-- `Bug.ProductName`: title-cased product with underscores replaced by spaces. -/
def Bug.productName (bug : Bug) : String :=
  productTitle bug.product

/-- `Request.ToBug`: details default to "N/A" when empty (`len(details) == 0`),
both timestamps are set to `time.Now()`, and `TTL` keeps its zero value. -/
def Request.toBug (request : Request) (now : Int) : Bug :=
  let details := if request.submission.details.length = 0 then "N/A"
                 else request.submission.details
  { userID := request.user.id
    userName := request.user.name
    summary := request.submission.summary
    product := request.submission.product
    details := details
    createdAt := now
    updatedAt := now
    ttl := 0 }

/-- Seven days in seconds: `AddDate(0, 0, 7).Unix() - Unix()` in UTC. -/
def sevenDays : Int := 7 * 86400

/-- The record `Request.PutItem` writes: `ToBug` with
`TTL = UpdatedAt.AddDate(0, 0, 7).Unix()` filled in before the marshal. -/
def Request.putItemRecord (request : Request) (now : Int) : Bug :=
  let bug := request.toBug now
  { bug with ttl := bug.updatedAt + sevenDays }

/-- The Jira issue-creation `fields` object built inside `createIssue`. -/
structure IssueFields where
  projectKey : String
  summary : String
  description : String
  issuetype : String
  labels : List String
  priority : String
  deriving Repr, DecidableEq

/-- The id/key/self triple decoded from the Jira create response. -/
structure IssueResult where
  id : String
  key : String
  self : String
  deriving Repr, DecidableEq

/-- `createIssue`'s `inputQueue` fields, built from a fresh `request.ToBug()`. -/
def createIssueFields (request : Request) (now : Int) : IssueFields :=
  let bug := request.toBug now
  { projectKey := "IQ"
    summary := bug.summary
    description :=
      "Product: " ++ bug.productName ++ "\nReporter: " ++ bug.userName
        ++ "\n\n" ++ bug.details
    issuetype := "Bug"
    labels := ["slack"]
    priority := "Not Yet Prioritized" }

/-- The confirmation text posted to the submission's response URL. -/
def confirmText (env : Env) (issue : IssueResult) : String :=
  "Bug submitted - ID: " ++ issue.id ++ ", Key: " ++ issue.key
    ++ ", Issue Link: https://" ++ env.jiraApiHost ++ "/projects/IQ/issues/"
    ++ issue.key

/-- One observable step of the interactive handler, in invocation order. -/
inductive Effect where
  /-- `request.PutItem()` is invoked (the DynamoDB write is attempted). -/
  | storeWrite (bug : Bug)
  /-- The handler's return values (`resp, nil`) are determined. -/
  | responseDecided (resp : Response)
  /-- `createIssue` POSTs the issue body to the Jira create endpoint. -/
  | issueCreate (fields : IssueFields)
  /-- `createIssue` POSTs the confirmation message to the response URL. -/
  | notify (url : String) (text : String)
  deriving Repr, DecidableEq

/-- Oracle for the downstream calls made once validation passed:
whether the DynamoDB put returned an error, and what the Jia create call
produced (`none` joins transport failure with decode failure, both of which
abort the rest of `createIssue`), and whether the notify POST succeeded. -/
structure Downstream where
  putItemError : Option String
  issueCreateResult : Option IssueResult
  notifyOk : Bool
  deriving Repr, DecidableEq

/-- Effects of the deferred `createIssue(request)`: the issue create is always
attempted; the notification only happens when an issue result was decoded. -/
def createIssueEffects (env : Env) (request : Request) (now : Int)
    (ds : Downstream) : List Effect :=
  match ds.issueCreateResult with
  | none => [Effect.issueCreate (createIssueFields request now)]
  | some issue =>
      [Effect.issueCreate (createIssueFields request now),
       Effect.notify request.responseURL (confirmText env issue)]

/-- `Handler` of `KanobugInteractiveComponent`, after the body has been parsed
into `request`: token check, then `defer createIssue`, then `PutItem`, then
the 200 response; the deferred `createIssue` runs after the return values are
decided and before the invocation completes. -/
def Handler (env : Env) (request : Request) (now : Int) (ds : Downstream) :
    Response × Option String × List Effect :=
  if request.token ≠ env.slackVerificationToken then
    (rejectResponse "KanobugInteractiveComponent",
     some "invalid verification token", [])
  else
    (okResponse, none,
     Effect.storeWrite (request.putItemRecord now)
       :: Effect.responseDecided okResponse
       :: createIssueEffects env request now ds)

/-- Full entry point including the form parse: `query["payload"][0]` panics
(`none`) when the form has no `payload` value; on JSON decode failure the
request keeps its zero value (`json.Unmarshal` error is only logged). -/
def entry (env : Env) (query : List (String × String))
    (decodeJSON : String → Option Request) (now : Int) (ds : Downstream) :
    Option (Response × Option String × List Effect) :=
  match (formValues query "payload").head? with
  | none => none
  | some payload =>
      let request := (decodeJSON payload).getD Request.zero
      some (Handler env request now ds)

end Interactive

namespace Command

/-- `Request` of the command handler: the ten form fields. -/
structure Request where
  token : String
  teamID : String
  teamDomain : String
  channelID : String
  channelName : String
  userID : String
  userName : String
  text : String
  triggerID : String
  responseURL : String
  deriving Repr, DecidableEq

/-- `Option` struct of the dialog payload (a label/value pair). -/
structure DialogOption where
  label : String
  value : String
  deriving Repr, DecidableEq

/-- `Element` struct of the dialog payload. -/
structure Element where
  label : String
  type : String
  name : String
  value : String
  hint : String
  options : List DialogOption
  optional : Bool
  deriving Repr, DecidableEq

/-- `Dialog` struct of the dialog payload. -/
structure Dialog where
  title : String
  callbackID : String
  submitLabel : String
  elements : List Element
  deriving Repr, DecidableEq

/-- `Payload` struct sent to the dialog-open endpoint. -/
structure Payload where
  triggerID : String
  dialog : Dialog
  deriving Repr, DecidableEq

/-- The five fixed product options of the dialog. -/
def productOptions : List DialogOption :=
  [⟨"Harry Potter Coding Kit", "harry_potter_coding_kit"⟩,
   ⟨"Computer Kit Touch", "computer_kit_touch"⟩,
   ⟨"Computer Kit 2018", "computer_kit_2018"⟩,
   ⟨"Pixel Kit", "pixel_kit"⟩,
   ⟨"Motion Sensor Kit", "motion_sensor_kit"⟩]

/-- The pre-filled single-line summary element, seeded with the free text. -/
def summaryElement (text : String) : Element :=
  { label := "Summarise the Problem"
    type := "text"
    name := "summary"
    value := text
    hint := "A sentence to summarise the problem"
    options := []
    optional := false }

/-- The single-select product element. -/
def productElement : Element :=
  { label := "Product"
    type := "select"
    name := "product"
    value := ""
    hint := ""
    options := productOptions
    optional := false }

/-- The optional multi-line details element. -/
def detailsElement : Element :=
  { label := "Any more details?"
    type := "textarea"
    name := "details"
    value := ""
    hint := "If you can help us reproduce the bug, that\x27d be grand."
    options := []
    optional := true }

/-- The `Payload` literal marshalled and POSTed to the dialog-open endpoint. -/
def buildPayload (request : Request) : Payload :=
  { triggerID := request.triggerID
    dialog :=
      { title := "Report a Bug"
        callbackID := "report-bug"
        submitLabel := "Submit"
        elements := [summaryElement request.text, productElement, detailsElement] } }

/-- The one observable side effect of the command handler. -/
inductive Effect where
  /-- Authenticated POST of the dialog payload to `apiEndpoint`. -/
  | dialogOpen (payload : Payload)
  deriving Repr, DecidableEq

/-- `Handler` of `KanobugCommand`, after the form fields have been read into
`request`: token check, then the dialog-open POST; the outcome of that call
(`dialogOpenOk`) is observed and logged but never changes the `resp, nil`
returned at the end. -/
def Handler (env : Env) (request : Request) (dialogOpenOk : Bool) :
    Response × Option String × List Effect :=
  if request.token ≠ env.slackVerificationToken then
    (rejectResponse "KanobugCommand", some "invalid verification token", [])
  else
    (okResponse, none, [Effect.dialogOpen (buildPayload request)])

/-- Full entry point including the form parse: every one of the ten
`query["…"][0]` reads panics (`none`) when its field is absent. -/
def entry (env : Env) (query : List (String × String)) (dialogOpenOk : Bool) :
    Option (Response × Option String × List Effect) := do
  let token ← (formValues query "token").head?
  let teamID ← (formValues query "team_id").head?
  let teamDomain ← (formValues query "team_domain").head?
  let channelID ← (formValues query "channel_id").head?
  let channelName ← (formValues query "channel_name").head?
  let userID ← (formValues query "user_id").head?
  let userName ← (formValues query "user_name").head?
  let text ← (formValues query "text").head?
  let triggerID ← (formValues query "trigger_id").head?
  let responseURL ← (formValues query "response_url").head?
  some (Handler env
    { token := token, teamID := teamID, teamDomain := teamDomain
      channelID := channelID, channelName := channelName, userID := userID
      userName := userName, text := text, triggerID := triggerID
      responseURL := responseURL }
    dialogOpenOk)

end Command

end Kanobug

namespace Kanobug

/-! ### Concrete fixtures used by the witnesses -/

/-- A concrete environment for the witnesses. -/
def envA : Env :=
  { slackVerificationToken := "sekrit", jiraApiHost := "jira.example.com" }

/-- An interactive submission carrying the configured token. -/
def goodIReq : Interactive.Request :=
  { type := "dialog_submission"
    submission := { summary := "crash on boot", product := "pixel_kit", details := "" }
    callbackID := "report-bug"
    user := { id := "U1", name := "ada" }
    actionTS := "1.2"
    token := "sekrit"
    responseURL := "https://hooks.example.com/r" }

/-- An interactive submission carrying a wrong token. -/
def badIReq : Interactive.Request :=
  { goodIReq with token := "wrong" }

/-- A command request carrying the configured token. -/
def goodCReq : Command.Request :=
  { token := "sekrit", teamID := "T1", teamDomain := "kano"
    channelID := "C1", channelName := "general", userID := "U1"
    userName := "ada", text := "button stuck", triggerID := "trig-1"
    responseURL := "https://hooks.example.com/c" }

/-- A command request carrying a wrong token. -/
def badCReq : Command.Request :=
  { goodCReq with token := "wrong" }

/-- A downstream oracle where everything succeeds. -/
def dsOK : Interactive.Downstream :=
  { putItemError := none
    issueCreateResult := some { id := "10001", key := "IQ-1", self := "https://jira.example.com/rest/api/2/issue/10001" }
    notifyOk := true }

/-! ### Claims -/

/-- C1: for every inbound request (to either handler) whose token does not
equal the configured secret, the returned `Response` has status 400 with a
body describing the failure, and the effect trace is empty: no dialog-open
call, no store write, no issue-create call. -/
theorem c1_bad_token_rejected_no_effects (env : Env)
    (ireq : Interactive.Request) (creq : Command.Request) (now : Int)
    (ds : Interactive.Downstream) (dialogOpenOk : Bool)
    (hi : ireq.token ≠ env.slackVerificationToken)
    (hc : creq.token ≠ env.slackVerificationToken) :
    (Interactive.Handler env ireq now ds).1.statusCode = 400 ∧
    (Interactive.Handler env ireq now ds).1.body
      = rejectBody "KanobugInteractiveComponent" ∧
    (Interactive.Handler env ireq now ds).2.2 = [] ∧
    (Command.Handler env creq dialogOpenOk).1.statusCode = 400 ∧
    (Command.Handler env creq dialogOpenOk).1.body = rejectBody "KanobugCommand" ∧
    (Command.Handler env creq dialogOpenOk).2.2 = [] := by
  simp [Interactive.Handler, Command.Handler, hi, hc, rejectResponse]

/-- Witness for C1 at a concrete bad-token request to each handler. -/
theorem c1_bad_token_rejected_no_effects_witness :
    badIReq.token ≠ envA.slackVerificationToken ∧
    badCReq.token ≠ envA.slackVerificationToken ∧
    ((Interactive.Handler envA badIReq 0 dsOK).1.statusCode = 400 ∧
     (Interactive.Handler envA badIReq 0 dsOK).1.body
       = rejectBody "KanobugInteractiveComponent" ∧
     (Interactive.Handler envA badIReq 0 dsOK).2.2 = [] ∧
     (Command.Handler envA badCReq true).1.statusCode = 400 ∧
     (Command.Handler envA badCReq true).1.body = rejectBody "KanobugCommand" ∧
     (Command.Handler envA badCReq true).2.2 = []) :=
  ⟨by decide, by decide,
   c1_bad_token_rejected_no_effects envA badIReq badCReq 0 dsOK true
     (by decide) (by decide)⟩

/-- C2: for every inbound request whose token matches the secret, both
handlers return status 200 with an empty body, whatever the outcomes of the
dialog-open call, the store write, the issue-create call and the
notification call (the oracles `ds` and `dialogOpenOk` are universally
quantified and the response does not depend on them). -/
theorem c2_good_token_always_200_empty (env : Env)
    (ireq : Interactive.Request) (creq : Command.Request) (now : Int)
    (ds : Interactive.Downstream) (dialogOpenOk : Bool)
    (hi : ireq.token = env.slackVerificationToken)
    (hc : creq.token = env.slackVerificationToken) :
    (Interactive.Handler env ireq now ds).1 = okResponse ∧
    (Interactive.Handler env ireq now ds).1.statusCode = 200 ∧
    (Interactive.Handler env ireq now ds).1.body = "" ∧
    (Command.Handler env creq dialogOpenOk).1 = okResponse ∧
    (Command.Handler env creq dialogOpenOk).1.statusCode = 200 ∧
    (Command.Handler env creq dialogOpenOk).1.body = "" := by
  simp [Interactive.Handler, Command.Handler, hi, hc, okResponse]

/-- Witness for C2 at concrete valid requests, with a downstream oracle in
which the issue-create call fails (`issueCreateResult := none`) and the
store write errors, showing the 200/empty response is unaffected. -/
theorem c2_good_token_always_200_empty_witness :
    goodIReq.token = envA.slackVerificationToken ∧
    goodCReq.token = envA.slackVerificationToken ∧
    ((Interactive.Handler envA goodIReq 0
        { putItemError := some "boom", issueCreateResult := none, notifyOk := false }).1
        = okResponse ∧
     (Interactive.Handler envA goodIReq 0
        { putItemError := some "boom", issueCreateResult := none, notifyOk := false }).1.statusCode = 200 ∧
     (Interactive.Handler envA goodIReq 0
        { putItemError := some "boom", issueCreateResult := none, notifyOk := false }).1.body = "" ∧
     (Command.Handler envA goodCReq false).1 = okResponse ∧
     (Command.Handler envA goodCReq false).1.statusCode = 200 ∧
     (Command.Handler envA goodCReq false).1.body = "") :=
  ⟨by decide, by decide,
   c2_good_token_always_200_empty envA goodIReq goodCReq 0
     { putItemError := some "boom", issueCreateResult := none, notifyOk := false }
     false (by decide) (by decide)⟩

/-- A string has length zero exactly when it is the empty string
(bridges Go's `len(details) == 0` test with equality to `""`). -/
theorem string_length_eq_zero_iff (s : String) : s.length = 0 ↔ s = "" := by
  cases s with
  | mk data =>
    cases data with
    | nil => simp
    | cons c cs => simp [String.length, String.ext_iff]

/-- C3: the record derived from a submission has details equal to "N/A"
exactly when the submission's details are empty, the submission's details
unchanged otherwise, and copies user id, user name, summary and product
from the submission unchanged. -/
theorem c3_toBug_details_default_and_copies
    (request : Interactive.Request) (now : Int) :
    (request.toBug now).details
      = (if request.submission.details = "" then "N/A"
         else request.submission.details) ∧
    (request.toBug now).userID = request.user.id ∧
    (request.toBug now).userName = request.user.name ∧
    (request.toBug now).summary = request.submission.summary ∧
    (request.toBug now).product = request.submission.product := by
  refine ⟨?_, rfl, rfl, rfl, rfl⟩
  simp only [Interactive.Request.toBug, string_length_eq_zero_iff]

/-- C4: for every record constructed and written by the interactive handler,
`updatedAt` equals `createdAt`, and the TTL (expiration instant) equals
`createdAt` plus exactly seven days in Unix seconds. -/
theorem c4_record_timestamps_and_ttl
    (request : Interactive.Request) (now : Int) :
    (request.putItemRecord now).updatedAt = (request.putItemRecord now).createdAt ∧
    (request.putItemRecord now).ttl
      = (request.putItemRecord now).createdAt + 7 * 86400 := by
  constructor <;>
    simp [Interactive.Request.putItemRecord, Interactive.Request.toBug,
      Interactive.sevenDays]

/-- C5: for every command request, the dialog payload contains a single-line
text element named "summary" whose default value is the request's free-text
argument exactly. -/
theorem c5_summary_element_prefilled (request : Command.Request) :
    ∃ e, e ∈ (Command.buildPayload request).dialog.elements ∧
      e.name = "summary" ∧ e.type = "text" ∧ e.value = request.text := by
  refine ⟨Command.summaryElement request.text, ?_, rfl, rfl, rfl⟩
  simp [Command.buildPayload]

/-- C6: for every command request, the dialog payload has callback id
"report-bug", the fixed title "Report a Bug" and submit label "Submit",
exactly three elements, and its element named "product" is a single-select
offering exactly the five fixed label/slug option pairs. -/
theorem c6_dialog_shape_fixed (request : Command.Request) :
    (Command.buildPayload request).dialog.callbackID = "report-bug" ∧
    (Command.buildPayload request).dialog.title = "Report a Bug" ∧
    (Command.buildPayload request).dialog.submitLabel = "Submit" ∧
    (Command.buildPayload request).dialog.elements.length = 3 ∧
    (∃ e, e ∈ (Command.buildPayload request).dialog.elements ∧
      e.name = "product" ∧ e.type = "select" ∧
      e.options.length = 5 ∧
      e.options =
        [⟨"Harry Potter Coding Kit", "harry_potter_coding_kit"⟩,
         ⟨"Computer Kit Touch", "computer_kit_touch"⟩,
         ⟨"Computer Kit 2018", "computer_kit_2018"⟩,
         ⟨"Pixel Kit", "pixel_kit"⟩,
         ⟨"Motion Sensor Kit", "motion_sensor_kit"⟩]) := by
  refine ⟨rfl, rfl, rfl, rfl, Command.productElement, ?_, rfl, rfl, rfl, rfl⟩
  simp [Command.buildPayload]

/-- C7: for every submission, the issue-creation request body has project key
"IQ", the record's summary, a description assembled from the title-cased
product, the reporter's display name and the (defaulted) details, issue type
"Bug", the single label "slack" and priority "Not Yet Prioritized". -/
theorem c7_issue_fields (request : Interactive.Request) (now : Int) :
    (Interactive.createIssueFields request now).projectKey = "IQ" ∧
    (Interactive.createIssueFields request now).summary
      = request.submission.summary ∧
    (Interactive.createIssueFields request now).description
      = "Product: " ++ productTitle request.submission.product
          ++ "\nReporter: " ++ request.user.name ++ "\n\n"
          ++ (if request.submission.details = "" then "N/A"
              else request.submission.details) ∧
    (Interactive.createIssueFields request now).issuetype = "Bug" ∧
    (Interactive.createIssueFields request now).labels = ["slack"] ∧
    (Interactive.createIssueFields request now).priority
      = "Not Yet Prioritized" := by
  refine ⟨rfl, rfl, ?_, rfl, rfl, rfl⟩
  simp only [Interactive.createIssueFields, Interactive.Request.toBug,
    Interactive.Bug.productName, string_length_eq_zero_iff]

/-- C8: there is an inbound request on which a handler hits an unguarded
index into an empty slice rather than a controlled error response: an
interactive request whose form body has no "payload" field faults, and a
command request whose form body misses one of the ten expected fields
(here `response_url`) faults as well. -/
theorem c8_missing_field_faults :
    Interactive.entry envA [] (fun _ => none) 0 dsOK = none ∧
    Command.entry envA
      [("token", "sekrit"), ("team_id", "T1"), ("team_domain", "kano"),
       ("channel_id", "C1"), ("channel_name", "general"), ("user_id", "U1"),
       ("user_name", "ada"), ("text", "button stuck"), ("trigger_id", "trig-1")]
      true = none := by
  constructor <;> rfl

/-- C9: for every valid submission, the interactive handler's effects are, in
order, the store-write attempt first, then the marker that the 200 response
has been decided, then the deferred issue-filing/notification effects, all
within the returned (complete) trace; the response component `okResponse`
does not mention the downstream oracle, so downstream failures never change
the already-decided response. -/
theorem c9_effect_order (env : Env) (request : Interactive.Request)
    (now : Int) (ds : Interactive.Downstream)
    (h : request.token = env.slackVerificationToken) :
    Interactive.Handler env request now ds =
      (okResponse, none,
        Interactive.Effect.storeWrite (request.putItemRecord now)
          :: Interactive.Effect.responseDecided okResponse
          :: Interactive.createIssueEffects env request now ds) := by
  simp [Interactive.Handler, h]

/-- Witness for C9 at a concrete valid submission with a successful oracle. -/
theorem c9_effect_order_witness :
    goodIReq.token = envA.slackVerificationToken ∧
    Interactive.Handler envA goodIReq 1700000000 dsOK =
      (okResponse, none,
        Interactive.Effect.storeWrite (goodIReq.putItemRecord 1700000000)
          :: Interactive.Effect.responseDecided okResponse
          :: Interactive.createIssueEffects envA goodIReq 1700000000 dsOK) :=
  ⟨by decide, c9_effect_order envA goodIReq 1700000000 dsOK (by decide)⟩

/-- C10: on token mismatch both handlers return a non-nil Go error,
"invalid verification token", alongside the 400 response; under the Lambda
proxy integration this non-nil error, not the 400 body, drives the
caller-visible outcome. -/
theorem c10_bad_token_error_nonnil (env : Env)
    (ireq : Interactive.Request) (creq : Command.Request) (now : Int)
    (ds : Interactive.Downstream) (dialogOpenOk : Bool)
    (hi : ireq.token ≠ env.slackVerificationToken)
    (hc : creq.token ≠ env.slackVerificationToken) :
    (Interactive.Handler env ireq now ds).2.1
      = some "invalid verification token" ∧
    (Interactive.Handler env ireq now ds).1.statusCode = 400 ∧
    (Command.Handler env creq dialogOpenOk).2.1
      = some "invalid verification token" ∧
    (Command.Handler env creq dialogOpenOk).1.statusCode = 400 := by
  simp [Interactive.Handler, Command.Handler, hi, hc, rejectResponse]

/-- Witness for C10 at concrete bad-token requests. -/
theorem c10_bad_token_error_nonnil_witness :
    badIReq.token ≠ envA.slackVerificationToken ∧
    badCReq.token ≠ envA.slackVerificationToken ∧
    ((Interactive.Handler envA badIReq 0 dsOK).2.1
        = some "invalid verification token" ∧
     (Interactive.Handler envA badIReq 0 dsOK).1.statusCode = 400 ∧
     (Command.Handler envA badCReq false).2.1
        = some "invalid verification token" ∧
     (Command.Handler envA badCReq false).1.statusCode = 400) :=
  ⟨by decide, by decide,
   c10_bad_token_error_nonnil envA badIReq badCReq 0 dsOK false
     (by decide) (by decide)⟩

end Kanobug
